import Mathlib

/-!
Verification development for the capture/encode/deliver pipeline of the
embedded rustdesk sources (src/src/server/video_service.rs and
src/src/server/display_service.rs).  Rust functions are embedded as pure
Lean functions; global mutable state read by a function becomes an explicit
argument, and the SWITCH / fatal control flow of the Rust code becomes an
explicit Except value.
-/

namespace RustdeskVideo

/-- Connection identifiers (i32 in the source). -/
abbrev ConnId := Int

/-- Modelled from the spec: the privacy-mode registry lives in the
crate-level module crate::privacy_mode, which is outside the embedded
sources.  The spec describes an opaque token identifying which connection
(if any) holds exclusive privacy-mode rights; the source represents the
no-holder case with the sentinel INVALID_PRIVACY_MODE_CONN_ID.  The
concrete sentinel value is irrelevant to every claim; we fix 0. -/
def INVALID_PRIVACY_MODE_CONN_ID : Int := 0

/-- VideoSource from video_service.rs. -/
inductive VideoSource
  | Monitor
  | Camera
deriving DecidableEq, Repr

/-- VideoSource::is_monitor. -/
def VideoSource.is_monitor : VideoSource → Bool
  | .Monitor => true
  | .Camera => false

/-- VideoSource::is_camera. -/
def VideoSource.is_camera : VideoSource → Bool
  | .Monitor => false
  | .Camera => true

/-- The fields of a live DisplayInfo entry of SYNC_DISPLAYS that
check_display_changed in display_service.rs reads (x, y, width, height
are i32 in the protobuf message). -/
structure DisplayInfo where
  x : Int
  y : Int
  width : Int
  height : Int
deriving DecidableEq, Repr

/-- display_service.rs, check_display_changed.  The live SYNC_DISPLAYS
list is passed explicitly.  The snapshot is (ndisplay, idx, (x, y, w, h));
w and h are usize in the source and are compared against the live i32
fields after an `as i32` cast, embedded here as Int coercions.
Mirrors the source exactly: if the index is absent from the live list,
the `?` operator on lock.displays.get(idx) returns None. -/
def check_display_changed (displays : List DisplayInfo) (ndisplay idx : Nat)
    (x y : Int) (w h : Nat) : Option DisplayInfo :=
  (displays[idx]?).bind fun d =>
    if ndisplay ≠ displays.length then some d
    else if ¬(d.x = x ∧ d.y = y ∧ d.width = (w : Int) ∧ d.height = (h : Int)) then some d
    else none

/-- What video_service.rs, check_privacy_mode_changed does when it bails
with SWITCH: whether a PrvOnByOther notification was sent (to every
connection except the one named), and that a geometry broadcast was
attempted (try_broadcast_display_changed with refresh = true, result
ignored via .ok()). -/
structure PrivacySwitch where
  notify_all_except : Option Int
  broadcast_attempted : Bool
deriving DecidableEq, Repr

/-- video_service.rs, check_privacy_mode_changed.  snapshot_id is
ci.privacy_mode_id (taken at acquisition), live_id is the current
get_privacy_mode_conn_id() (INVALID when none).  The notification is sent
only when the NEW holder is valid, and is sent to everyone except the new
holder (sp.send_to_others(msg, privacy_mode_id_2)). -/
def check_privacy_mode_changed (snapshot_id live_id : Int) : Except PrivacySwitch Unit :=
  if snapshot_id ≠ live_id then
    .error
      { notify_all_except :=
          if live_id ≠ INVALID_PRIVACY_MODE_CONN_ID then some live_id else none,
        broadcast_attempted := true }
  else
    .ok ()

/-- Error taxonomy of capture acquisition: the first bail in
get_capturer_monitor / get_capturer_camera (index out of range) versus a
platform capture-API failure (create_capturer / Cameras::get_capturer). -/
inductive CapError
  | NotFound
  | BackendError
deriving DecidableEq, Repr

/-- CapturerInfo from video_service.rs (the capture handle itself carries
no data relevant to the claims and is dropped). -/
structure CapturerInfo where
  origin : Int × Int
  width : Nat
  height : Nat
  ndisplay : Nat
  current : Nat
  privacy_mode_id : Int
deriving DecidableEq, Repr

/-- A scrap Display as read by get_capturer_monitor: origin, width,
height. -/
structure Display where
  origin : Int × Int
  width : Nat
  height : Nat
deriving DecidableEq, Repr

/-- A camera entry of Cameras::get_sync_cameras() as read by
get_capturer_camera (x, y are i32; width, height are read through
`as usize`). -/
structure CameraInfo where
  x : Int
  y : Int
  width : Nat
  height : Nat
deriving DecidableEq, Repr

/-- video_service.rs, get_capturer_monitor.  displays is Display::all();
live_privacy is get_privacy_mode_conn_id(); create_capturer_ok abstracts
whether Capturer::new succeeds. -/
def get_capturer_monitor (displays : List Display) (live_privacy : Option Int)
    (create_capturer_ok : Bool) (current : Nat) : Except CapError CapturerInfo :=
  let ndisplay := displays.length
  if ndisplay ≤ current then .error .NotFound
  else
    match displays[current]? with
    | none => .error .NotFound
    | some display =>
      let privacy_mode_id := live_privacy.getD INVALID_PRIVACY_MODE_CONN_ID
      if create_capturer_ok then
        .ok { origin := display.origin, width := display.width, height := display.height,
              ndisplay := ndisplay, current := current, privacy_mode_id := privacy_mode_id }
      else .error .BackendError

/-- video_service.rs, get_capturer_camera.  cameras is
Cameras::get_sync_cameras(); get_capturer_ok abstracts whether
Cameras::get_capturer succeeds. -/
def get_capturer_camera (cameras : List CameraInfo) (live_privacy : Option Int)
    (get_capturer_ok : Bool) (current : Nat) : Except CapError CapturerInfo :=
  let ncamera := cameras.length
  if ncamera ≤ current then .error .NotFound
  else
    match cameras[current]? with
    | none => .error .NotFound
    | some camera =>
      if get_capturer_ok then
        .ok { origin := (camera.x, camera.y), width := camera.width, height := camera.height,
              ndisplay := ncamera, current := current,
              privacy_mode_id := live_privacy.getD INVALID_PRIVACY_MODE_CONN_ID }
      else .error .BackendError

/-- video_service.rs, get_capturer: dispatch on the source kind. -/
def get_capturer (source : VideoSource) (displays : List Display)
    (cameras : List CameraInfo) (live_privacy : Option Int) (backend_ok : Bool)
    (current : Nat) : Except CapError CapturerInfo :=
  match source with
  | .Monitor => get_capturer_monitor displays live_privacy backend_ok current
  | .Camera => get_capturer_camera cameras live_privacy backend_ok current

-- ======================================================================
-- C2: topology-change detection
-- ======================================================================

/-- C2 (counterexample): the claim says absence of the index in the live
enumeration (monitor unplugged) is reported as a change; in the source,
lock.displays.get(idx)? returns None in exactly that case, so no change is
reported even though the snapshot count (1) differs from the live count
(0). -/
theorem c2_absent_index_reports_no_change :
    check_display_changed [] 1 0 0 0 800 600 = none ∧
      (1 : Nat) ≠ ([] : List DisplayInfo).length := by
  exact ⟨rfl, by decide⟩

/-- C2 (amended): detect_topology_change (check_display_changed) returns
the live geometry exactly when the snapshot index is still present in the
live list AND (the live count differs from the snapshot count OR the live
rectangle at that index differs from the snapshot rectangle); when the
index is absent (monitor unplugged) it returns None, and when the snapshot
equals the live state it returns None. -/
theorem c2_check_display_changed_characterization :
    (∀ (displays : List DisplayInfo) (ndisplay idx : Nat) (x y : Int) (w h : Nat)
        (d : DisplayInfo),
      (check_display_changed displays ndisplay idx x y w h = some d ↔
        displays[idx]? = some d ∧
          (ndisplay ≠ displays.length ∨
            ¬(d.x = x ∧ d.y = y ∧ d.width = (w : Int) ∧ d.height = (h : Int))))) ∧
    (∀ (displays : List DisplayInfo) (idx : Nat) (d : DisplayInfo) (w h : Nat),
      displays[idx]? = some d → d.width = (w : Int) → d.height = (h : Int) →
        check_display_changed displays displays.length idx d.x d.y w h = none) := by
  constructor
  · intro displays ndisplay idx x y w h d
    cases hg : displays[idx]? with
    | none => simp [check_display_changed, hg]
    | some d' =>
      unfold check_display_changed
      rw [hg]
      simp only [Option.bind]
      by_cases hn : ndisplay ≠ displays.length
      · rw [if_pos hn]
        constructor
        · intro h'
          exact ⟨h', Or.inl hn⟩
        · rintro ⟨hd, -⟩
          exact hd
      · rw [if_neg hn]
        by_cases hr : ¬(d'.x = x ∧ d'.y = y ∧ d'.width = (w : Int) ∧ d'.height = (h : Int))
        · rw [if_pos hr]
          constructor
          · intro h'
            injection h' with h2
            subst h2
            exact ⟨rfl, Or.inr hr⟩
          · rintro ⟨hd, -⟩
            exact hd
        · rw [if_neg hr]
          constructor
          · intro h'
            exact absurd h' (by simp)
          · rintro ⟨hd, hor⟩
            injection hd with h2
            subst h2
            push_neg at hn
            rcases hor with hor | hor
            · exact absurd hn hor
            · exact absurd (not_not.mp hr) hor
  · intro displays idx d w h hg hw hh
    unfold check_display_changed
    rw [hg]
    simp only [Option.bind]
    simp [hw, hh]

/-- Witness for c2_check_display_changed_characterization: a concrete
snapshot equal to the single live display yields None. -/
theorem c2_check_display_changed_witness :
    check_display_changed [{ x := 0, y := 0, width := 800, height := 600 }] 1 0 0 0 800 600 =
      none :=
  c2_check_display_changed_characterization.2
    [{ x := 0, y := 0, width := 800, height := 600 }] 0
    { x := 0, y := 0, width := 800, height := 600 } 800 600 rfl (by decide) (by decide)

-- ======================================================================
-- C7: privacy-mode drift
-- ======================================================================

/-- C7 (counterexample): privacy mode turns off while connection 7 was the
snapshotted holder.  The claim says the previous holder (here 7) is
notified that it lost exclusivity; the source sends the PrvOnByOther
notification only when the NEW holder is valid, so here nobody is
notified (notify_all_except = none), although the switch is still
raised. -/
theorem c7_holder_cleared_notifies_nobody :
    check_privacy_mode_changed 7 INVALID_PRIVACY_MODE_CONN_ID =
      .error { notify_all_except := none, broadcast_attempted := true } ∧
    (7 : Int) ≠ INVALID_PRIVACY_MODE_CONN_ID := by
  exact ⟨rfl, by decide⟩

/-- C7 (amended): when the live privacy-mode holder differs from the
holder snapshotted at acquisition, a geometry broadcast is attempted and
RestartRequested (SWITCH) is raised; a PrvOnByOther notification is sent
to every connection except the NEW holder exactly when the new holder is
valid (in particular, when privacy mode is turned off no notification is
sent, even if a previous holder existed); when the holder is unchanged the
check returns without any effect. -/
theorem c7_privacy_drift_behavior (snapshot_id live_id : Int) :
    (snapshot_id = live_id → check_privacy_mode_changed snapshot_id live_id = .ok ()) ∧
    (snapshot_id ≠ live_id → live_id ≠ INVALID_PRIVACY_MODE_CONN_ID →
      check_privacy_mode_changed snapshot_id live_id =
        .error { notify_all_except := some live_id, broadcast_attempted := true }) ∧
    (snapshot_id ≠ live_id → live_id = INVALID_PRIVACY_MODE_CONN_ID →
      check_privacy_mode_changed snapshot_id live_id =
        .error { notify_all_except := none, broadcast_attempted := true }) := by
  refine ⟨?_, ?_, ?_⟩
  · intro h
    simp [check_privacy_mode_changed, h]
  · intro h hv
    simp [check_privacy_mode_changed, h, hv]
  · intro h hv
    subst hv
    unfold check_privacy_mode_changed
    rw [if_pos h, if_neg (by simp)]

/-- Witness for c7_privacy_drift_behavior: concrete holders 0 → 7
(privacy turns on for connection 7: everyone else is notified and the
switch is raised). -/
theorem c7_privacy_drift_behavior_witness :
    check_privacy_mode_changed INVALID_PRIVACY_MODE_CONN_ID 7 =
      .error { notify_all_except := some 7, broadcast_attempted := true } :=
  (c7_privacy_drift_behavior INVALID_PRIVACY_MODE_CONN_ID 7).2.1 (by decide) (by decide)

-- ======================================================================
-- C8: capture acquisition precondition
-- ======================================================================

/-- C8: for both source kinds, acquisition fails with NotFound whenever
the index is at least the current source count (in particular after a
source-count drop), fails with BackendError when the index is in range but
the platform capture API fails, and returns the capture geometry (origin,
width, height, source count, index) plus the privacy snapshot when the
index is in range and the platform call succeeds. -/
theorem c8_acquire_contract :
    (∀ (displays : List Display) (lp : Option Int) (ok : Bool) (current : Nat),
      displays.length ≤ current →
        get_capturer_monitor displays lp ok current = .error .NotFound) ∧
    (∀ (cameras : List CameraInfo) (lp : Option Int) (ok : Bool) (current : Nat),
      cameras.length ≤ current →
        get_capturer_camera cameras lp ok current = .error .NotFound) ∧
    (∀ (displays : List Display) (lp : Option Int) (current : Nat) (d : Display),
      displays[current]? = some d →
        get_capturer_monitor displays lp true current =
          .ok { origin := d.origin, width := d.width, height := d.height,
                ndisplay := displays.length, current := current,
                privacy_mode_id := lp.getD INVALID_PRIVACY_MODE_CONN_ID }) ∧
    (∀ (displays : List Display) (lp : Option Int) (current : Nat),
      current < displays.length →
        get_capturer_monitor displays lp false current = .error .BackendError) ∧
    (∀ (cameras : List CameraInfo) (lp : Option Int) (current : Nat) (c : CameraInfo),
      cameras[current]? = some c →
        get_capturer_camera cameras lp true current =
          .ok { origin := (c.x, c.y), width := c.width, height := c.height,
                ndisplay := cameras.length, current := current,
                privacy_mode_id := lp.getD INVALID_PRIVACY_MODE_CONN_ID }) := by
  refine ⟨?_, ?_, ?_, ?_, ?_⟩
  · intro displays lp ok current h
    unfold get_capturer_monitor
    simp [h]
  · intro cameras lp ok current h
    unfold get_capturer_camera
    simp [h]
  · intro displays lp current d hg
    obtain ⟨hlt, -⟩ := List.getElem?_eq_some_iff.1 hg
    unfold get_capturer_monitor
    rw [if_neg (show ¬(displays.length ≤ current) by omega), hg]
    rfl
  · intro displays lp current hlt
    unfold get_capturer_monitor
    rw [if_neg (show ¬(displays.length ≤ current) by omega)]
    cases hg : displays[current]? with
    | none =>
      rw [List.getElem?_eq_none_iff] at hg
      omega
    | some d => simp
  · intro cameras lp current c hg
    obtain ⟨hlt, -⟩ := List.getElem?_eq_some_iff.1 hg
    unfold get_capturer_camera
    rw [if_neg (show ¬(cameras.length ≤ current) by omega), hg]
    rfl

/-- Witness for c8_acquire_contract: a concrete 2-display topology where
index 2 (after an unplug from 3 to 2 displays) fails with NotFound, and
index 1 succeeds with its geometry. -/
theorem c8_acquire_contract_witness :
    get_capturer_monitor [⟨(0, 0), 1920, 1080⟩, ⟨(1920, 0), 1280, 720⟩] (some 7) true 2 =
        .error .NotFound ∧
    get_capturer_monitor [⟨(0, 0), 1920, 1080⟩, ⟨(1920, 0), 1280, 720⟩] (some 7) true 1 =
        .ok { origin := (1920, 0), width := 1280, height := 720, ndisplay := 2,
              current := 1, privacy_mode_id := 7 } ∧
    get_capturer_camera [] none true 0 = .error .NotFound := by
  refine ⟨?_, ?_, ?_⟩
  · exact c8_acquire_contract.1 _ (some 7) true 2 (by decide)
  · exact c8_acquire_contract.2.2.1 [⟨(0, 0), 1920, 1080⟩, ⟨(1920, 0), 1280, 720⟩]
      (some 7) 1 ⟨(1920, 0), 1280, 720⟩ rfl
  · exact c8_acquire_contract.2.1 [] none true 0 (by decide)

-- ======================================================================
-- Encoder model, handle_one_frame (C1), encoder negotiation (C6)
-- ======================================================================

/-- The attributes of a built scrap Encoder that video_service.rs reads:
support_changing_quality(), latency_free(), is_hardware(), plus the
in-place quality and the disable flag written through set_quality() /
disable().  The quality type is f32 in the source, used only for equality
comparison and pass-through; embedded as Rat. -/
structure Encoder where
  support_changing_quality : Bool
  latency_free : Bool
  is_hardware : Bool
  quality : Rat
  disabled : Bool
deriving DecidableEq, Repr

/-- The reason attached to a SWITCH bail (in the source every site bails
with the same "SWITCH" string; the tag records which site). -/
inductive SwitchReason
  | qualityChange
  | recordChange
  | refresh
  | codecChange
  | i444Change
  | privacy
  | displayChanged
  | screenshot
  | newSubscriber
  | encodeFail
  | encodeNeedSwitch
deriving DecidableEq, Repr

/-- Result of one encoder.encode_to_message call: success, or an error
together with whether e.to_string() equals scrap::codec::ENCODE_NEED_SWITCH. -/
inductive EncodeOutcome
  | ok
  | err (need_switch : Bool)
deriving DecidableEq, Repr

/-- The outputs of video_service.rs handle_one_frame when it returns
Ok: the connection ids the frame was sent to, and the updated encoder /
encode_fail_counter / first_frame state. -/
structure HofOk where
  send_conn_ids : Finset ConnId
  encoder : Encoder
  encode_fail_counter : Nat
  first_frame : Bool
deriving DecidableEq

/-- The state carried out of handle_one_frame when it bails with SWITCH. -/
structure HofSwitch where
  reason : SwitchReason
  encoder : Encoder
  encode_fail_counter : Nat
  first_frame : Bool
deriving DecidableEq

/-- video_service.rs, handle_one_frame.  has_new_subscriber abstracts the
sp.snapshot closure observing sps.has_subscribes(); outcome is the result
of encoder.encode_to_message; send_ids is what sp.send_video_frame
returns on success.  max_fail_times is 3 in the source; the counter is
incremented on every failure, reset on success, and reset when the
escalation threshold is hit whether or not the encoder is hardware; the
SWITCH escalation for the threshold (and for the first-frame case with a
latency-free, i.e. non filler-capable, encoder) happens only when
encoder.is_hardware(); an ENCODE_NEED_SWITCH error disables the encoder
and bails for any encoder kind. -/
def handle_one_frame (has_new_subscriber : Bool) (encoder : Encoder)
    (outcome : EncodeOutcome) (send_ids : Finset ConnId)
    (encode_fail_counter : Nat) (first_frame : Bool) : Except HofSwitch HofOk :=
  if has_new_subscriber then
    .error { reason := .newSubscriber, encoder := encoder,
             encode_fail_counter := encode_fail_counter, first_frame := first_frame }
  else
    match outcome with
    | .ok =>
      .ok { send_conn_ids := send_ids, encoder := encoder,
            encode_fail_counter := 0, first_frame := false }
    | .err need_switch =>
      if (first_frame = true ∧ encoder.latency_free = true) ∨ 3 ≤ encode_fail_counter + 1 then
        if encoder.is_hardware then
          .error { reason := .encodeFail, encoder := { encoder with disabled := true },
                   encode_fail_counter := 0, first_frame := false }
        else if need_switch then
          .error { reason := .encodeNeedSwitch,
                   encoder := { encoder with disabled := true },
                   encode_fail_counter := 0, first_frame := false }
        else
          .ok { send_conn_ids := ∅, encoder := encoder,
                encode_fail_counter := 0, first_frame := false }
      else if need_switch then
        .error { reason := .encodeNeedSwitch, encoder := { encoder with disabled := true },
                 encode_fail_counter := encode_fail_counter + 1, first_frame := false }
      else
        .ok { send_conn_ids := ∅, encoder := encoder,
              encode_fail_counter := encode_fail_counter + 1, first_frame := false }

/-- scrap CodecFormat, as matched in get_encoder_config (the catch-all
arm of the source match is Unknown here). -/
inductive CodecFormat
  | VP8
  | VP9
  | AV1
  | H264
  | H265
  | Unknown
deriving DecidableEq, Repr

/-- scrap VpxVideoCodecId. -/
inductive VpxVideoCodecId
  | VP8
  | VP9
deriving DecidableEq, Repr

/-- The encoder configuration built by get_encoder_config: one of the
four EncoderCfg variants of the source (VRAM texture hardware encoder,
HWRAM hardware encoder, VPX software, AOM software), carrying the fields
the claims inspect. -/
inductive EncoderCfg
  | VRAM (codec : CodecFormat) (width height : Nat) (quality : Rat)
      (keyframe_interval : Option Nat)
  | HWRAM (codec : CodecFormat) (width height : Nat) (quality : Rat)
      (keyframe_interval : Option Nat)
  | VPX (width height : Nat) (quality : Rat) (codec : VpxVideoCodecId)
      (keyframe_interval : Option Nat)
  | AOM (width height : Nat) (quality : Rat) (keyframe_interval : Option Nat)
deriving DecidableEq, Repr

/-- video_service.rs, get_encoder_config.  vram_avail abstracts
VRamEncoder::try_get(device, codec).is_some() (the feature-gated hardware
texture probe), hwram_avail abstracts HwRamEncoder::try_get(codec)
.is_some(); a build with the corresponding cargo feature disabled is the
constant-false instantiation.  The keyframe interval is Some 240 exactly
when recording is requested.  Hardware backends are probed only for the
H264/H265 arms, in the order texture-VRAM then RAM; all remaining arms
build the software config for the negotiated codec, with VP9 as the
fixed fallback for codecs that have no software encoder here. -/
def get_encoder_config (vram_avail hwram_avail : CodecFormat → Bool)
    (c : CapturerInfo) (quality : Rat) (record : Bool)
    (negotiated : CodecFormat) : EncoderCfg :=
  let keyframe_interval := if record then some 240 else none
  match negotiated with
  | .H264 | .H265 =>
    if vram_avail negotiated then
      .VRAM negotiated c.width c.height quality keyframe_interval
    else if hwram_avail negotiated then
      .HWRAM negotiated c.width c.height quality keyframe_interval
    else
      .VPX c.width c.height quality .VP9 keyframe_interval
  | .VP8 => .VPX c.width c.height quality .VP8 keyframe_interval
  | .VP9 => .VPX c.width c.height quality .VP9 keyframe_interval
  | .AV1 => .AOM c.width c.height quality keyframe_interval
  | .Unknown => .VPX c.width c.height quality .VP9 keyframe_interval

/-- Modelled from the spec: Encoder::new and Encoder::set_fallback live in
the external scrap crate.  Whether Encoder::new succeeds on a given config
is abstracted as the predicate build_ok; per the spec, after a
construction failure the caller forces the negotiated codec to the fixed
known-safe software codec (VP9) via Encoder::set_fallback and retries
setup_encoder exactly once, and a second failure propagates as fatal.
This mirrors the match on setup_encoder(..) in run() of video_service.rs:
the Ok arm returns the first result; the Err arm calls
Encoder::set_fallback(VPX VP9 config) and then setup_encoder(..)? whose
error propagates. -/
def build_encoder_with_fallback (build_ok : EncoderCfg → Bool)
    (vram_avail hwram_avail : CodecFormat → Bool) (c : CapturerInfo)
    (quality : Rat) (record : Bool) (negotiated : CodecFormat) :
    Except Unit (EncoderCfg × CodecFormat) :=
  if build_ok (get_encoder_config vram_avail hwram_avail c quality record negotiated) then
    .ok (get_encoder_config vram_avail hwram_avail c quality record negotiated, negotiated)
  else if build_ok (get_encoder_config vram_avail hwram_avail c quality record .VP9) then
    .ok (get_encoder_config vram_avail hwram_avail c quality record .VP9, .VP9)
  else .error ()

/-- C6: encoder construction tries the backends in priority order — for
codecs with hardware support (H264/H265): hardware texture (VRAM) first,
then hardware RAM, then the software encoder (VP9 for these families);
VP8/VP9/AV1 build their own software encoder family directly (hardware
backends exist only for H264/H265 in the source); when construction
fails the negotiated codec is forced to the known-safe software codec VP9
and construction is retried exactly once; when the retry also fails the
error propagates as fatal.  The keyframe interval is fixed (240) and set
only when recording is requested. -/
theorem c6_encoder_priority_and_fallback (vram_avail hwram_avail : CodecFormat → Bool)
    (build_ok : EncoderCfg → Bool) (c : CapturerInfo) (q : Rat) (record : Bool)
    (negotiated : CodecFormat) :
    ((negotiated = .H264 ∨ negotiated = .H265) →
      ((vram_avail negotiated = true →
        get_encoder_config vram_avail hwram_avail c q record negotiated =
          .VRAM negotiated c.width c.height q (if record then some 240 else none)) ∧
       (vram_avail negotiated = false → hwram_avail negotiated = true →
        get_encoder_config vram_avail hwram_avail c q record negotiated =
          .HWRAM negotiated c.width c.height q (if record then some 240 else none)) ∧
       (vram_avail negotiated = false → hwram_avail negotiated = false →
        get_encoder_config vram_avail hwram_avail c q record negotiated =
          .VPX c.width c.height q .VP9 (if record then some 240 else none)))) ∧
    (get_encoder_config vram_avail hwram_avail c q record .VP8 =
        .VPX c.width c.height q .VP8 (if record then some 240 else none) ∧
      get_encoder_config vram_avail hwram_avail c q record .VP9 =
        .VPX c.width c.height q .VP9 (if record then some 240 else none) ∧
      get_encoder_config vram_avail hwram_avail c q record .AV1 =
        .AOM c.width c.height q (if record then some 240 else none)) ∧
    (build_ok (get_encoder_config vram_avail hwram_avail c q record negotiated) = true →
      build_encoder_with_fallback build_ok vram_avail hwram_avail c q record negotiated =
        .ok (get_encoder_config vram_avail hwram_avail c q record negotiated, negotiated)) ∧
    (build_ok (get_encoder_config vram_avail hwram_avail c q record negotiated) = false →
      build_ok (.VPX c.width c.height q .VP9 (if record then some 240 else none)) = true →
      build_encoder_with_fallback build_ok vram_avail hwram_avail c q record negotiated =
        .ok (.VPX c.width c.height q .VP9 (if record then some 240 else none), .VP9)) ∧
    (build_ok (get_encoder_config vram_avail hwram_avail c q record negotiated) = false →
      build_ok (.VPX c.width c.height q .VP9 (if record then some 240 else none)) = false →
      build_encoder_with_fallback build_ok vram_avail hwram_avail c q record negotiated =
        .error ()) := by
  have hcfg2 : get_encoder_config vram_avail hwram_avail c q record .VP9 =
      .VPX c.width c.height q .VP9 (if record then some 240 else none) := rfl
  refine ⟨?_, ⟨rfl, rfl, rfl⟩, ?_, ?_, ?_⟩
  · intro hneg
    refine ⟨?_, ?_, ?_⟩
    · intro hv
      rcases hneg with h | h <;> subst h <;> simp [get_encoder_config, hv]
    · intro hv hh
      rcases hneg with h | h <;> subst h <;> simp [get_encoder_config, hv, hh]
    · intro hv hh
      rcases hneg with h | h <;> subst h <;> simp [get_encoder_config, hv, hh]
  · intro hb
    unfold build_encoder_with_fallback
    rw [hb]
    rfl
  · intro hb hb2
    unfold build_encoder_with_fallback
    rw [hb, hcfg2, hb2]
    rfl
  · intro hb hb2
    unfold build_encoder_with_fallback
    rw [hb, hcfg2, hb2]
    rfl

/-- Witness for c6_encoder_priority_and_fallback: negotiated H264 with the
texture backend available picks the VRAM config; with a build that fails
on the VRAM config and succeeds on the VP9 software config, the fallback
retry returns the VP9 software encoder. -/
theorem c6_encoder_priority_and_fallback_witness :
    (get_encoder_config (fun f => f = .H264) (fun _ => false)
        { origin := (0, 0), width := 640, height := 480, ndisplay := 1, current := 0,
          privacy_mode_id := 0 } 1 false .H264 =
      .VRAM .H264 640 480 1 none) ∧
    (build_encoder_with_fallback
        (fun cfg => cfg = .VPX 640 480 1 .VP9 none) (fun f => f = .H264) (fun _ => false)
        { origin := (0, 0), width := 640, height := 480, ndisplay := 1, current := 0,
          privacy_mode_id := 0 } 1 false .H264 =
      .ok (.VPX 640 480 1 .VP9 none, .VP9)) := by
  constructor
  · exact ((c6_encoder_priority_and_fallback (fun f => f = .H264) (fun _ => false)
      (fun _ => false)
      { origin := (0, 0), width := 640, height := 480, ndisplay := 1, current := 0,
        privacy_mode_id := 0 } 1 false .H264).1 (Or.inl rfl)).1 (by decide)
  · exact (c6_encoder_priority_and_fallback (fun f => f = .H264) (fun _ => false)
      (fun cfg => cfg = .VPX 640 480 1 .VP9 none)
      { origin := (0, 0), width := 640, height := 480, ndisplay := 1, current := 0,
        privacy_mode_id := 0 } 1 false .H264).2.2.2.1 (by decide) (by decide)

-- ======================================================================
-- Acknowledgment backpressure wait (C4, C9)
-- ======================================================================

/-- One slice of the acknowledgment wait in run() of video_service.rs:
whether the live privacy holder differs from the snapshot at this moment
(read by check_privacy_mode_changed before the slice for monitor
sources), the wall time the try_wait_next(300) call consumed (at most
~300 ms plus the opportunistic drain), and the connection ids inserted
into fetched_conn_ids during the slice (the ids arriving on this display
index channel via notify_video_frame_fetched, with NO membership check
against the recorded send set). -/
structure Slice where
  privacy_drift : Bool
  dur : Nat
  acks : List ConnId
deriving DecidableEq

/-- Result of the wait: normal completion with the elapsed milliseconds
and the set of distinct ids fetched, or the privacy-poll bail
(check_privacy_mode_changed bailing SWITCH inside the wait). -/
inductive WaitResult
  | done (elapsed : Nat) (fetched : Finset ConnId)
  | switchPrivacy (elapsed : Nat)
deriving DecidableEq

/-- Elapsed time of a wait result. -/
def WaitResult.elapsedOf : WaitResult → Nat
  | .done e _ => e
  | .switchPrivacy e => e

/-- The wait loop of run() in video_service.rs:
while wait_begin.elapsed() < 3000 { if monitor: check_privacy_mode_changed?;
frame_controller.try_wait_next(&mut fetched, 300);
if fetched.len() >= send_conn_ids.len() break }.
send_count is frame_controller.send_conn_ids.len(); the loop exits early
as soon as the NUMBER of distinct fetched ids reaches send_count (the ids
themselves are never compared against the recorded set). -/
def ack_wait_loop (is_monitor : Bool) (send_count : Nat) :
    List Slice → Nat → Finset ConnId → WaitResult
  | [], elapsed, fetched => .done elapsed fetched
  | s :: rest, elapsed, fetched =>
    if 3000 ≤ elapsed then .done elapsed fetched
    else if is_monitor ∧ s.privacy_drift then .switchPrivacy elapsed
    else
      if send_count ≤ (fetched ∪ s.acks.toFinset).card then
        .done (elapsed + s.dur) (fetched ∪ s.acks.toFinset)
      else ack_wait_loop is_monitor send_count rest (elapsed + s.dur)
        (fetched ∪ s.acks.toFinset)

/-- Union of all acknowledgment ids carried by a schedule of slices. -/
def slices_acks : List Slice → Finset ConnId
  | [] => ∅
  | s :: rest => s.acks.toFinset ∪ slices_acks rest

/-- Sum of the slice durations of a schedule. -/
def slices_dur : List Slice → Nat
  | [] => 0
  | s :: rest => s.dur + slices_dur rest

lemma ack_wait_loop_elapsed_lt (is_monitor : Bool) (n : Nat) :
    ∀ (slices : List Slice) (elapsed : Nat) (fetched : Finset ConnId),
      (∀ s ∈ slices, s.dur ≤ 300) → elapsed < 3300 →
      (ack_wait_loop is_monitor n slices elapsed fetched).elapsedOf < 3300 := by
  intro slices
  induction slices with
  | nil =>
    intro elapsed fetched _ he
    exact he
  | cons s rest ih =>
    intro elapsed fetched hd he
    unfold ack_wait_loop
    by_cases h3 : 3000 ≤ elapsed
    · rw [if_pos h3]
      exact he
    · rw [if_neg h3]
      by_cases hp : is_monitor = true ∧ s.privacy_drift = true
      · rw [if_pos hp]
        exact he
      · rw [if_neg hp]
        have hdur : s.dur ≤ 300 := hd s (by simp)
        by_cases hc : n ≤ (fetched ∪ s.acks.toFinset).card
        · rw [if_pos hc]
          simp only [WaitResult.elapsedOf]
          omega
        · rw [if_neg hc]
          exact ih (elapsed + s.dur) (fetched ∪ s.acks.toFinset)
            (fun x hx => hd x (by simp [hx])) (by omega)

lemma ack_wait_loop_no_privacy (n : Nat) :
    ∀ (slices : List Slice) (elapsed : Nat) (fetched : Finset ConnId),
      (∀ s ∈ slices, s.privacy_drift = false) →
      ∃ e f, ack_wait_loop false n slices elapsed fetched = .done e f := by
  intro slices
  induction slices with
  | nil =>
    intro elapsed fetched _
    exact ⟨elapsed, fetched, rfl⟩
  | cons s rest ih =>
    intro elapsed fetched hd
    unfold ack_wait_loop
    by_cases h3 : 3000 ≤ elapsed
    · rw [if_pos h3]
      exact ⟨elapsed, fetched, rfl⟩
    · rw [if_neg h3, if_neg (by simp)]
      by_cases hc : n ≤ (fetched ∪ s.acks.toFinset).card
      · rw [if_pos hc]
        exact ⟨_, _, rfl⟩
      · rw [if_neg hc]
        exact ih _ _ (fun x hx => hd x (by simp [hx]))

lemma ack_wait_loop_early_exit (m : Bool) (n : Nat) :
    ∀ (j : Nat) (slices : List Slice) (elapsed : Nat) (fetched : Finset ConnId),
      (∀ s ∈ slices, s.dur ≤ 300) → (∀ s ∈ slices, s.privacy_drift = false) → 1 ≤ j →
      n ≤ (fetched ∪ slices_acks (slices.take j)).card →
      elapsed + 300 * j < 3000 →
      ∃ e f, ack_wait_loop m n slices elapsed fetched = .done e f ∧
        e < 3000 ∧ n ≤ f.card := by
  intro j slices
  induction slices generalizing j with
  | nil =>
    intro elapsed fetched _ _ _ hn he
    refine ⟨elapsed, fetched, rfl, by omega, ?_⟩
    simpa [List.take_nil, slices_acks] using hn
  | cons s rest ih =>
    intro elapsed fetched hd hp hj hn he
    unfold ack_wait_loop
    rw [if_neg (by omega), if_neg (by simp [hp s (by simp)])]
    have hdur : s.dur ≤ 300 := hd s (by simp)
    by_cases hc : n ≤ (fetched ∪ s.acks.toFinset).card
    · rw [if_pos hc]
      exact ⟨_, _, rfl, by omega, hc⟩
    · rw [if_neg hc]
      have hj2 : 2 ≤ j := by
        by_contra hlt
        have hj1 : j = 1 := by omega
        subst hj1
        simp only [List.take_succ_cons, List.take_zero, slices_acks,
          Finset.union_empty] at hn
        exact hc hn
      have hik := ih (j - 1) (elapsed + s.dur) (fetched ∪ s.acks.toFinset)
        (fun x hx => hd x (by simp [hx])) (fun x hx => hp x (by simp [hx]))
        (by omega) ?_ (by omega)
      · exact hik
      · have htk : (s :: rest).take j = s :: rest.take (j - 1) := by
          cases j with
          | zero => omega
          | succ j2 => simp
        rw [htk] at hn
        simp only [slices_acks] at hn
        rw [← Finset.union_assoc] at hn
        exact hn

lemma ack_wait_loop_timeout (is_monitor : Bool) (n : Nat) :
    ∀ (slices : List Slice) (elapsed : Nat) (fetched : Finset ConnId),
      (∀ s ∈ slices, s.privacy_drift = false) →
      (fetched ∪ slices_acks slices).card < n →
      3000 ≤ elapsed + slices_dur slices →
      ∃ e f, ack_wait_loop is_monitor n slices elapsed fetched = .done e f ∧
        3000 ≤ e ∧ f.card < n := by
  intro slices
  induction slices with
  | nil =>
    intro elapsed fetched _ hcard hdur
    refine ⟨elapsed, fetched, rfl, ?_, ?_⟩
    · simpa [slices_dur] using hdur
    · have hsub : fetched ⊆ fetched ∪ slices_acks ([] : List Slice) :=
        Finset.subset_union_left
      have := Finset.card_le_card hsub
      omega
  | cons s rest ih =>
    intro elapsed fetched hp hcard hdur
    unfold ack_wait_loop
    by_cases h3 : 3000 ≤ elapsed
    · rw [if_pos h3]
      refine ⟨elapsed, fetched, rfl, h3, ?_⟩
      have hsub : fetched ⊆ fetched ∪ slices_acks (s :: rest) :=
        Finset.subset_union_left
      have := Finset.card_le_card hsub
      omega
    · rw [if_neg h3, if_neg (by simp [hp s (by simp)])]
      have hsub : (fetched ∪ s.acks.toFinset) ∪ slices_acks rest =
          fetched ∪ slices_acks (s :: rest) := by
        simp only [slices_acks]
        rw [Finset.union_assoc]
      by_cases hc : n ≤ (fetched ∪ s.acks.toFinset).card
      · exfalso
        have hle : (fetched ∪ s.acks.toFinset).card ≤
            (fetched ∪ slices_acks (s :: rest)).card := by
          apply Finset.card_le_card
          rw [← hsub]
          exact Finset.subset_union_left
        omega
      · rw [if_neg hc]
        apply ih
        · intro x hx
          exact hp x (by simp [hx])
        · rw [hsub]
          exact hcard
        · simp only [slices_dur] at hdur
          omega

/-- C4 (counterexample): two failures of the claim on a monitor-source
wait (no privacy drift).  First, connections 1 and 2 are recorded for the
send; only connection 1 of them ever acknowledges, but an acknowledgment
from the unrecorded connection 3 arrives on the same display channel, so
the wait exits after 300 ms — before the 3-second bound — even though
fewer than N of the recorded connections acknowledged, contradicting the
claim that it then returns at the bound.  Second, with no acknowledgment
at all and slices of at most 300 ms (one of 299 ms followed by 300 ms
slices), the head check elapsed < 3000 admits one more slice at elapsed
2999, so the wait returns only at 3299 ms — the claimed "at most 3
seconds" is exceeded. -/
theorem c4_unrecorded_ack_defeats_bound :
    (ack_wait_loop true (({1, 2} : Finset ConnId).card)
        [{ privacy_drift := false, dur := 300, acks := [1, 3] }] 0 ∅ =
      .done 300 ({1, 3} : Finset ConnId) ∧
    (2 : ConnId) ∈ ({1, 2} : Finset ConnId) ∧
    (2 : ConnId) ∉ ({1, 3} : Finset ConnId) ∧
    (300 : Nat) < 3000) ∧
    (ack_wait_loop true 1
        ({ privacy_drift := false, dur := 299, acks := [] } ::
          List.replicate 10 { privacy_drift := false, dur := 300, acks := [] }) 0 ∅ =
      .done 3299 ∅ ∧
    (3000 : Nat) < 3299) := by
  refine ⟨⟨?_, by decide, by decide, by decide⟩, ?_, by decide⟩
  · decide
  · decide

/-- C4 (amended): for either source kind, the wait runs in slices of at
most ~300 ms; with every slice bounded by 300 ms the total wait is
bounded by 3000 ms plus one slice (< 3300 ms), not by 3000 ms exactly
(the overrun is exhibited in the counterexample); in a drift-free run it
exits before the 3-second bound once the number of DISTINCT acknowledging
connection ids reaches the number of recorded connections (in particular
once all recorded connections have acknowledged within the first nine
slices); if fewer than that many distinct ids ever arrive, it runs to the
3-second bound; and for monitor sources a privacy-mode drift observed at
a slice boundary aborts the wait with RestartRequested. -/
theorem c4_ack_wait_bounds (m : Bool) (n : Nat) (slices : List Slice) :
    ((∀ s ∈ slices, s.dur ≤ 300) →
      (ack_wait_loop m n slices 0 ∅).elapsedOf < 3300) ∧
    ((∀ s ∈ slices, s.dur ≤ 300) → (∀ s ∈ slices, s.privacy_drift = false) →
      n ≤ (slices_acks (slices.take 9)).card →
      ∃ e f, ack_wait_loop m n slices 0 ∅ = .done e f ∧ e < 3000 ∧ n ≤ f.card) ∧
    ((∀ s ∈ slices, s.privacy_drift = false) → (slices_acks slices).card < n →
      3000 ≤ slices_dur slices →
      ∃ e f, ack_wait_loop m n slices 0 ∅ = .done e f ∧ 3000 ≤ e ∧ f.card < n) ∧
    (∀ (s : Slice) (rest : List Slice), s.privacy_drift = true →
      ack_wait_loop true n (s :: rest) 0 ∅ = .switchPrivacy 0) := by
  refine ⟨?_, ?_, ?_, ?_⟩
  · intro hd
    exact ack_wait_loop_elapsed_lt m n slices 0 ∅ hd (by omega)
  · intro hd hp hn
    rcases Nat.eq_zero_or_pos n with hn0 | hn1
    · subst hn0
      rcases slices with _ | ⟨s, rest⟩
      · exact ⟨0, ∅, rfl, by omega, by simp⟩
      · unfold ack_wait_loop
        rw [if_neg (by omega), if_neg (by simp [hp s (by simp)])]
        rw [if_pos (by omega)]
        refine ⟨_, _, rfl, ?_, by omega⟩
        have : s.dur ≤ 300 := hd s (by simp)
        omega
    · apply ack_wait_loop_early_exit m n 9 slices 0 ∅ hd hp (by omega) ?_ (by omega)
      simpa using hn
  · intro hp hcard hdur
    apply ack_wait_loop_timeout m n slices 0 ∅ hp (by simpa using hcard) (by omega)
  · intro s rest hdrift
    unfold ack_wait_loop
    rw [if_neg (by omega), if_pos ⟨rfl, hdrift⟩]

/-- Witness for c4_ack_wait_bounds on a monitor-source wait: a concrete
schedule with a single drift-free slice carrying the one recorded
acknowledgment (early exit), a concrete ack-free drift-free schedule of
ten 300 ms slices (timeout at the bound), and a concrete drifting slice
(privacy bail). -/
theorem c4_ack_wait_bounds_witness :
    (ack_wait_loop true 1 [{ privacy_drift := false, dur := 300, acks := [5] }] 0
        ∅).elapsedOf < 3300 ∧
    (∃ e f, ack_wait_loop true 1 [{ privacy_drift := false, dur := 300, acks := [5] }] 0 ∅ =
        .done e f ∧ e < 3000 ∧ 1 ≤ f.card) ∧
    (∃ e f, ack_wait_loop true 1
        (List.replicate 10 ({ privacy_drift := false, dur := 300, acks := [] } : Slice)) 0 ∅ =
        .done e f ∧ 3000 ≤ e ∧ f.card < 1) ∧
    ack_wait_loop true 1 [{ privacy_drift := true, dur := 100, acks := [] }] 0 ∅ =
      .switchPrivacy 0 := by
  refine ⟨?_, ?_, ?_, ?_⟩
  · exact (c4_ack_wait_bounds true 1
      [{ privacy_drift := false, dur := 300, acks := [5] }]).1 (by decide)
  · exact (c4_ack_wait_bounds true 1
      [{ privacy_drift := false, dur := 300, acks := [5] }]).2.1
      (by decide) (by decide) (by decide)
  · exact (c4_ack_wait_bounds true 1
      (List.replicate 10 ({ privacy_drift := false, dur := 300, acks := [] } : Slice))).2.2.1
      (by decide) (by decide) (by decide)
  · exact (c4_ack_wait_bounds true 1 []).2.2.2
      { privacy_drift := true, dur := 100, acks := [] } [] rfl

/-- C9: the wait's early exit compares only the COUNT of distinct ids
fetched on the display channel against the count of recorded ids — an
acknowledgment from a connection id outside the recorded set still
counts, so a run exists that exits before the 3-second bound while a
recorded connection has not acknowledged. -/
theorem c9_count_only_comparison :
    ∃ (send_ids : Finset ConnId) (slices : List Slice) (e : Nat) (f : Finset ConnId),
      ack_wait_loop false send_ids.card slices 0 ∅ = .done e f ∧
      e < 3000 ∧
      ∃ i ∈ send_ids, i ∉ f := by
  refine ⟨{4, 5}, [{ privacy_drift := false, dur := 200, acks := [4, 6] }], 200,
    {4, 6}, ?_, by omega, 5, by decide, by decide⟩
  decide

-- ======================================================================
-- QoS check, loop iteration (C3, C5, C10)
-- ======================================================================

/-- The VideoQoS fields read by check_qos in video_service.rs: spf()
(milliseconds here), ratio() (f32 in the source, used only for equality
comparison and pass-through, embedded as Rat), in_vbr_state(),
latest_quality().is_custom(), and record(). -/
structure QosSnapshot where
  spf : Nat
  ratio : Rat
  in_vbr_state : Bool
  latest_quality_is_custom : Bool
  record : Bool
deriving DecidableEq

/-- The loop-visible outputs of check_qos: the (possibly quality-updated)
encoder and the refreshed ratio and spf locals. -/
structure QosOut where
  encoder : Encoder
  ratio : Rat
  spf : Nat
deriving DecidableEq

/-- video_service.rs, check_qos.  *spf = video_qos.spf(); if the loop
ratio differs from the QoS ratio, the loop ratio is refreshed and either
the quality is applied in place through encoder.set_quality (when the
encoder supports changing quality; the set_quality error is ignored via
allow_err! and store_bitrate is a side effect on the QoS record) or, when
the encoder does not support it and the QoS is neither in a VBR state nor
on a custom profile, the function bails with SWITCH; afterwards a changed
record() relative to client_record also bails with SWITCH.  The
send_counter/second_instant statistics update touches only the external
QoS record and is omitted. -/
def check_qos (encoder : Encoder) (ratio : Rat) (client_record : Bool)
    (qos : QosSnapshot) : Except SwitchReason QosOut :=
  match
    (if ratio ≠ qos.ratio then
      if encoder.support_changing_quality then
        .ok ({ encoder with quality := qos.ratio }, qos.ratio)
      else if ¬qos.in_vbr_state ∧ ¬qos.latest_quality_is_custom then
        .error .qualityChange
      else .ok (encoder, qos.ratio)
    else .ok (encoder, ratio) : Except SwitchReason (Encoder × Rat)) with
  | .error r => .error r
  | .ok (encoder2, ratio2) =>
    if client_record ≠ qos.record then .error .recordChange
    else .ok { encoder := encoder2, ratio := ratio2, spf := qos.spf }

/-- The kind of raw frame a successful capture produced (a scrap
Frame::PixelBuffer or Frame::Texture). -/
inductive FrameKind
  | pixelBuffer
  | texture
deriving DecidableEq, Repr

/-- Result of c.frame(spf): success (with validity flag, frame kind and
whether the pixel-layout conversion frame.to(..) succeeds), the WouldBlock
timeout, or any other capture error (fatal for the epoch). -/
inductive CaptureResult
  | ok (valid : Bool) (kind : FrameKind) (convert_ok : Bool)
  | wouldBlock
  | otherError
deriving DecidableEq, Repr

/-- The mutable locals of run() threaded across iterations. -/
structure LoopState where
  encoder : Encoder
  ratio : Rat
  spf : Nat
  repeat_encode_counter : Nat
  encode_fail_counter : Nat
  first_frame : Bool
  yuv_available : Bool
  send_counter : Nat
deriving DecidableEq

/-- The per-epoch constants of run(): the source kind, the CapturerInfo
acquired at Starting (including the privacy snapshot), the codec format
and i444 mode the encoder was built with, and the client_record flag. -/
structure EpochCfg where
  source : VideoSource
  cap : CapturerInfo
  codec_format : CodecFormat
  use_i444 : Bool
  client_record : Bool
deriving DecidableEq

/-- Everything one iteration of the run() loop reads from the outside
world: the QoS snapshot, the refresh option, the currently negotiated
codec and i444 mode, the live privacy holder at the iteration head, due
display re-check and the live SYNC_DISPLAYS, a pending screenshot request
(restore_vram flag), the capture result, a new subscriber observed by the
snapshot hook, the encode outcome, the conn ids the fan-out reports, and
the acknowledgment wait schedule. -/
structure IterInput where
  qos : QosSnapshot
  refresh_requested : Bool
  negotiated_codec : CodecFormat
  use_i444_now : Bool
  live_privacy_id : Int
  check_displays_due : Bool
  live_displays : List DisplayInfo
  screenshot : Option Bool
  capture : CaptureResult
  has_new_subscriber : Bool
  encode : EncodeOutcome
  send_ids : Finset ConnId
  slices : List Slice

/-- How an iteration of run() ends when it does not simply continue:
a SWITCH bail (RestartRequested, tagged with the bailing site) or a fatal
error propagated to the caller. -/
inductive IterExit
  | switch (reason : SwitchReason)
  | fatal
deriving DecidableEq, Repr

/-- The outputs of a completed iteration: the updated loop state, whether
a filler frame was re-encoded this iteration, and how many frames were
handed to the fan-out transport (0 or 1). -/
structure IterOut where
  state : LoopState
  filler_emitted : Bool
  frames_sent : Nat
deriving DecidableEq

/-- The tail of an iteration shared by every capture path: the
acknowledgment wait loop (with per-slice privacy re-poll for monitor
sources) followed by normal completion. -/
def finish_iteration (cfg : EpochCfg) (inp : IterInput) (st : LoopState)
    (sent : Finset ConnId) (frames : Nat) (filler : Bool) : Except IterExit IterOut :=
  match ack_wait_loop cfg.source.is_monitor sent.card inp.slices 0 ∅ with
  | .switchPrivacy _ => .error (.switch .privacy)
  | .done _ _ => .ok { state := st, filler_emitted := filler, frames_sent := frames }

/-- The encode-and-deliver step shared by the real-frame path and the
filler path: handle_one_frame followed by frame_controller.set_send and
send_counter += 1, then the backpressure wait. -/
def encode_and_send (cfg : EpochCfg) (inp : IterInput) (st : LoopState)
    (filler : Bool) : Except IterExit IterOut :=
  match handle_one_frame inp.has_new_subscriber st.encoder inp.encode inp.send_ids
      st.encode_fail_counter st.first_frame with
  | .error sw => .error (.switch sw.reason)
  | .ok h =>
    finish_iteration cfg inp
      { st with
        encoder := h.encoder, encode_fail_counter := h.encode_fail_counter,
        first_frame := h.first_frame, send_counter := st.send_counter + 1 }
      h.send_conn_ids 1 filler

/-- One iteration of the while sp.ok() loop of run() in video_service.rs,
in source order: check_qos; the OPTION_REFRESH bail; the negotiated-codec
drift bail; the i444 drift bail; the privacy-drift check (monitor only);
the once-per-second topology re-check (monitor only; a detected change
broadcasts and bails); frame_controller.reset(); the capture with its
three outcomes — a valid frame runs the screenshot interception (a
texture screenshot or a restore_vram replay bails with SWITCH), then the
pixel conversion (failure is fatal) and the encode/send; WouldBlock
re-encodes the previous converted buffer as a filler frame when the
encoder is not latency-free, a buffer exists, and fewer than 10
consecutive fillers have run; any other capture error re-checks the
topology (monitor) and otherwise propagates as fatal — and finally the
acknowledgment wait. -/
def iterate (cfg : EpochCfg) (st : LoopState) (inp : IterInput) : Except IterExit IterOut :=
  match check_qos st.encoder st.ratio cfg.client_record inp.qos with
  | .error r => .error (.switch r)
  | .ok q =>
    let st := { st with encoder := q.encoder, ratio := q.ratio, spf := q.spf }
    if inp.refresh_requested then .error (.switch .refresh)
    else if cfg.codec_format ≠ inp.negotiated_codec then .error (.switch .codecChange)
    else if cfg.use_i444 ≠ inp.use_i444_now then .error (.switch .i444Change)
    else
      match (if cfg.source.is_monitor then
          check_privacy_mode_changed cfg.cap.privacy_mode_id inp.live_privacy_id
        else .ok ()) with
      | .error _ => .error (.switch .privacy)
      | .ok _ =>
        if cfg.source.is_monitor ∧ inp.check_displays_due ∧
            (check_display_changed inp.live_displays cfg.cap.ndisplay cfg.cap.current
              cfg.cap.origin.1 cfg.cap.origin.2 cfg.cap.width cfg.cap.height).isSome then
          .error (.switch .displayChanged)
        else
          match inp.capture with
          | .ok valid kind convert_ok =>
            let st := { st with repeat_encode_counter := 0 }
            if valid then
              match inp.screenshot, kind with
              | some _, .texture => .error (.switch .screenshot)
              | some restore_vram, .pixelBuffer =>
                if restore_vram then .error (.switch .screenshot)
                else if ¬convert_ok then .error .fatal
                else encode_and_send cfg inp { st with yuv_available := true } false
              | none, _ =>
                if ¬convert_ok then .error .fatal
                else
                  encode_and_send cfg inp
                    { st with yuv_available :=
                        (kind = .pixelBuffer) ∨ st.yuv_available } false
            else finish_iteration cfg inp st ∅ 0 false
          | .wouldBlock =>
            if ¬st.encoder.latency_free ∧ st.yuv_available then
              if st.repeat_encode_counter < 10 then
                encode_and_send cfg inp
                  { st with repeat_encode_counter := st.repeat_encode_counter + 1 } true
              else finish_iteration cfg inp st ∅ 0 false
            else finish_iteration cfg inp st ∅ 0 false
          | .otherError =>
            if cfg.source.is_monitor ∧
                (check_display_changed inp.live_displays cfg.cap.ndisplay cfg.cap.current
                  cfg.cap.origin.1 cfg.cap.origin.2 cfg.cap.width
                  cfg.cap.height).isSome then
              .error (.switch .displayChanged)
            else .error .fatal

/-- Whether an iteration result is a SWITCH bail with the given reason. -/
def exit_is (r : SwitchReason) : Except IterExit IterOut → Bool
  | .error (.switch r2) => r2 == r
  | _ => false

lemma check_qos_error_inv {enc : Encoder} {r : Rat} {rec : Bool} {qos : QosSnapshot}
    {rr : SwitchReason} (h : check_qos enc r rec qos = .error rr) :
    (rr = .qualityChange ∧ enc.support_changing_quality = false) ∨ rr = .recordChange := by
  unfold check_qos at h
  split at h
  · rename_i r2 heq
    injection h with h2
    subst h2
    split at heq
    · split at heq
      · simp at heq
      · split at heq
        · injection heq with h3
          subst h3
          rename_i hs _
          exact Or.inl ⟨rfl, by simpa using hs⟩
        · simp at heq
    · simp at heq
  · split at h
    · injection h with h2
      subst h2
      exact Or.inr rfl
    · simp at h

lemma check_qos_quality_switch {enc : Encoder} {r : Rat} {rec : Bool} {qos : QosSnapshot}
    (hne : r ≠ qos.ratio) (hs : enc.support_changing_quality = false)
    (hv : qos.in_vbr_state = false) (hc : qos.latest_quality_is_custom = false) :
    check_qos enc r rec qos = .error .qualityChange := by
  unfold check_qos
  rw [if_pos hne, if_neg (by simp [hs]), if_pos (by simp [hv, hc])]

lemma handle_one_frame_error_reason {b : Bool} {enc : Encoder} {o : EncodeOutcome}
    {ids : Finset ConnId} {c : Nat} {f : Bool} {sw : HofSwitch}
    (h : handle_one_frame b enc o ids c f = .error sw) :
    sw.reason = .newSubscriber ∨ sw.reason = .encodeFail ∨ sw.reason = .encodeNeedSwitch := by
  unfold handle_one_frame at h
  split at h
  · injection h with h2
    subst h2
    exact Or.inl rfl
  · split at h
    · simp at h
    · split at h
      · split at h
        · injection h with h2
          subst h2
          exact Or.inr (Or.inl rfl)
        · split at h
          · injection h with h2
            subst h2
            exact Or.inr (Or.inr rfl)
          · simp at h
      · split at h
        · injection h with h2
          subst h2
          exact Or.inr (Or.inr rfl)
        · simp at h

lemma ack_wait_loop_switch_monitor {m : Bool} {n : Nat} :
    ∀ {sl : List Slice} {e : Nat} {f : Finset ConnId} {x : Nat},
      ack_wait_loop m n sl e f = .switchPrivacy x → m = true := by
  intro sl
  induction sl with
  | nil =>
    intro e f x h
    simp [ack_wait_loop] at h
  | cons s rest ih =>
    intro e f x h
    unfold ack_wait_loop at h
    split at h
    · simp at h
    · split at h
      · rename_i hcond
        exact hcond.1
      · split at h
        · simp at h
        · exact ih h

lemma finish_iteration_error {cfg : EpochCfg} {inp : IterInput} {st : LoopState}
    {sent : Finset ConnId} {frames : Nat} {filler : Bool} {e : IterExit}
    (h : finish_iteration cfg inp st sent frames filler = .error e) :
    e = .switch .privacy ∧ cfg.source.is_monitor = true := by
  unfold finish_iteration at h
  split at h
  · rename_i x heq
    injection h with h2
    subst h2
    exact ⟨rfl, ack_wait_loop_switch_monitor heq⟩
  · simp at h

lemma encode_and_send_error {cfg : EpochCfg} {inp : IterInput} {st : LoopState}
    {filler : Bool} {e : IterExit}
    (h : encode_and_send cfg inp st filler = .error e) :
    e = .switch .newSubscriber ∨ e = .switch .encodeFail ∨ e = .switch .encodeNeedSwitch ∨
      (e = .switch .privacy ∧ cfg.source.is_monitor = true) := by
  unfold encode_and_send at h
  split at h
  · rename_i sw heq
    injection h with h2
    subst h2
    rcases handle_one_frame_error_reason heq with h3 | h3 | h3 <;> rw [h3]
    · exact Or.inl rfl
    · exact Or.inr (Or.inl rfl)
    · exact Or.inr (Or.inr (Or.inl rfl))
  · rename_i hf heq
    exact Or.inr (Or.inr (Or.inr (finish_iteration_error h)))

/-- Inventory of the SWITCH bail sites of one iteration: a SWITCH exit
either comes out of check_qos, or is one of the reasons raised
unconditionally (refresh, codec drift, i444 drift, screenshot paths,
encode escalation, new subscriber), or is a privacy / topology bail,
which only monitor sources can raise. -/
lemma iterate_switch_inv {cfg : EpochCfg} {st : LoopState} {inp : IterInput}
    {r : SwitchReason} (h : iterate cfg st inp = .error (.switch r)) :
    check_qos st.encoder st.ratio cfg.client_record inp.qos = .error r ∨
    (r = .refresh ∨ r = .codecChange ∨ r = .i444Change ∨ r = .screenshot ∨
      r = .newSubscriber ∨ r = .encodeFail ∨ r = .encodeNeedSwitch) ∨
    ((r = .privacy ∨ r = .displayChanged) ∧ cfg.source.is_monitor = true) := by
  unfold iterate at h
  split at h
  · rename_i r2 heq
    injection h with h2
    injection h2 with h3
    subst h3
    exact Or.inl heq
  · rename_i q heq
    split at h
    · injection h with h2
      injection h2 with h3
      subst h3
      exact Or.inr (Or.inl (Or.inl rfl))
    · split at h
      · injection h with h2
        injection h2 with h3
        subst h3
        exact Or.inr (Or.inl (Or.inr (Or.inl rfl)))
      · split at h
        · injection h with h2
          injection h2 with h3
          subst h3
          exact Or.inr (Or.inl (Or.inr (Or.inr (Or.inl rfl))))
        · split at h
          · rename_i e2 heq2
            injection h with h2
            injection h2 with h3
            subst h3
            refine Or.inr (Or.inr ⟨Or.inl rfl, ?_⟩)
            by_cases hm : cfg.source.is_monitor = true
            · exact hm
            · rw [if_neg hm] at heq2
              simp at heq2
          · split at h
            · rename_i hcond
              injection h with h2
              injection h2 with h3
              subst h3
              exact Or.inr (Or.inr ⟨Or.inr rfl, hcond.1⟩)
            · split at h
              · -- capture ok
                dsimp only at h
                split at h
                · -- valid frame
                  split at h
                  · -- screenshot on texture
                    injection h with h2
                    injection h2 with h3
                    subst h3
                    exact Or.inr (Or.inl (Or.inr (Or.inr (Or.inr (Or.inl rfl)))))
                  · -- screenshot on pixel buffer
                    split at h
                    · injection h with h2
                      injection h2 with h3
                      subst h3
                      exact Or.inr (Or.inl (Or.inr (Or.inr (Or.inr (Or.inl rfl)))))
                    · split at h
                      · simp at h
                      · rcases encode_and_send_error h with h3 | h3 | h3 | ⟨h3, hm⟩
                        · injection h3 with h4
                          subst h4
                          exact Or.inr (Or.inl (Or.inr (Or.inr (Or.inr (Or.inr (Or.inl rfl))))))
                        · injection h3 with h4
                          subst h4
                          exact Or.inr (Or.inl (Or.inr (Or.inr (Or.inr (Or.inr (Or.inr (Or.inl rfl)))))))
                        · injection h3 with h4
                          subst h4
                          exact Or.inr (Or.inl (Or.inr (Or.inr (Or.inr (Or.inr (Or.inr (Or.inr rfl)))))))
                        · injection h3 with h4
                          subst h4
                          exact Or.inr (Or.inr ⟨Or.inl rfl, hm⟩)
                  · -- no screenshot
                    split at h
                    · simp at h
                    · rcases encode_and_send_error h with h3 | h3 | h3 | ⟨h3, hm⟩
                      · injection h3 with h4
                        subst h4
                        exact Or.inr (Or.inl (Or.inr (Or.inr (Or.inr (Or.inr (Or.inl rfl))))))
                      · injection h3 with h4
                        subst h4
                        exact Or.inr (Or.inl (Or.inr (Or.inr (Or.inr (Or.inr (Or.inr (Or.inl rfl)))))))
                      · injection h3 with h4
                        subst h4
                        exact Or.inr (Or.inl (Or.inr (Or.inr (Or.inr (Or.inr (Or.inr (Or.inr rfl)))))))
                      · injection h3 with h4
                        subst h4
                        exact Or.inr (Or.inr ⟨Or.inl rfl, hm⟩)
                · -- invalid frame
                  rcases finish_iteration_error h with ⟨h3, hm⟩
                  injection h3 with h4
                  subst h4
                  exact Or.inr (Or.inr ⟨Or.inl rfl, hm⟩)
              · -- would block
                dsimp only at h
                split at h
                · split at h
                  · rcases encode_and_send_error h with h3 | h3 | h3 | ⟨h3, hm⟩
                    · injection h3 with h4
                      subst h4
                      exact Or.inr (Or.inl (Or.inr (Or.inr (Or.inr (Or.inr (Or.inl rfl))))))
                    · injection h3 with h4
                      subst h4
                      exact Or.inr (Or.inl (Or.inr (Or.inr (Or.inr (Or.inr (Or.inr (Or.inl rfl)))))))
                    · injection h3 with h4
                      subst h4
                      exact Or.inr (Or.inl (Or.inr (Or.inr (Or.inr (Or.inr (Or.inr (Or.inr rfl)))))))
                    · injection h3 with h4
                      subst h4
                      exact Or.inr (Or.inr ⟨Or.inl rfl, hm⟩)
                  · rcases finish_iteration_error h with ⟨h3, hm⟩
                    injection h3 with h4
                    subst h4
                    exact Or.inr (Or.inr ⟨Or.inl rfl, hm⟩)
                · rcases finish_iteration_error h with ⟨h3, hm⟩
                  injection h3 with h4
                  subst h4
                  exact Or.inr (Or.inr ⟨Or.inl rfl, hm⟩)
              · -- other capture error
                dsimp only at h
                split at h
                · rename_i hcond
                  injection h with h2
                  injection h2 with h3
                  subst h3
                  exact Or.inr (Or.inr ⟨Or.inr rfl, hcond.1⟩)
                · simp at h

lemma exit_is_eq_true {r : SwitchReason} {x : Except IterExit IterOut}
    (h : exit_is r x = true) : x = .error (.switch r) := by
  unfold exit_is at h
  split at h
  · rename_i r2
    rw [beq_iff_eq] at h
    rw [h]
  · simp at h

/-- C3: quality-change restart.  If the QoS ratio differs from the loop
ratio, the encoder does not support dynamic quality change and the new
quality is neither a VBR state nor a custom profile, the iteration raises
RestartRequested from check_qos — which runs before any capture or
encode, so the restart is raised before the next frame is sent, and it is
the single exit of the iteration; if the encoder does support dynamic
quality change, check_qos applies the quality in place (set_quality,
ratio refresh) and the iteration can never raise the quality-change
restart. -/
theorem c3_quality_change_restart (cfg : EpochCfg) (st : LoopState) (inp : IterInput) :
    (st.ratio ≠ inp.qos.ratio → st.encoder.support_changing_quality = false →
      inp.qos.in_vbr_state = false → inp.qos.latest_quality_is_custom = false →
      iterate cfg st inp = .error (.switch .qualityChange)) ∧
    (st.encoder.support_changing_quality = true → st.ratio ≠ inp.qos.ratio →
      cfg.client_record = inp.qos.record →
      check_qos st.encoder st.ratio cfg.client_record inp.qos =
        .ok { encoder := { st.encoder with quality := inp.qos.ratio },
              ratio := inp.qos.ratio, spf := inp.qos.spf }) ∧
    (st.encoder.support_changing_quality = true →
      exit_is .qualityChange (iterate cfg st inp) = false) := by
  refine ⟨?_, ?_, ?_⟩
  · intro hne hs hv hc
    unfold iterate
    rw [check_qos_quality_switch hne hs hv hc]
  · intro hs hne hrec
    unfold check_qos
    rw [if_pos hne, if_pos hs]
    dsimp only
    rw [if_neg (by simp [hrec])]
  · intro hs
    cases hx : exit_is .qualityChange (iterate cfg st inp) with
    | false => rfl
    | true =>
      exfalso
      have hit := exit_is_eq_true hx
      rcases iterate_switch_inv hit with hA | hB | hC
      · rcases check_qos_error_inv hA with ⟨-, h1⟩ | h1
        · rw [hs] at h1
          cases h1
        · cases h1
      · rcases hB with h | h | h | h | h | h | h <;> cases h
      · rcases hC.1 with h | h <;> cases h

/-- Witness for c3_quality_change_restart: a concrete encoder without
dynamic-quality support sees the ratio change from 1/2 to 3/4 and the
iteration bails with the quality-change SWITCH; a concrete supporting
encoder applies it in place. -/
theorem c3_quality_change_restart_witness :
    (iterate
        { source := .Monitor,
          cap := { origin := (0, 0), width := 800, height := 600, ndisplay := 1,
                   current := 0, privacy_mode_id := 0 },
          codec_format := .VP9, use_i444 := false, client_record := false }
        { encoder := { support_changing_quality := false, latency_free := true,
                       is_hardware := false, quality := 1/2, disabled := false },
          ratio := 1/2, spf := 33, repeat_encode_counter := 0, encode_fail_counter := 0,
          first_frame := true, yuv_available := false, send_counter := 0 }
        { qos := { spf := 33, ratio := 3/4, in_vbr_state := false,
                   latest_quality_is_custom := false, record := false },
          refresh_requested := false, negotiated_codec := .VP9, use_i444_now := false,
          live_privacy_id := 0, check_displays_due := false, live_displays := [],
          screenshot := none, capture := .wouldBlock, has_new_subscriber := false,
          encode := .ok, send_ids := ∅, slices := [] } =
      .error (.switch .qualityChange)) ∧
    (check_qos
        { support_changing_quality := true, latency_free := true, is_hardware := false,
          quality := 1/2, disabled := false } (1/2) false
        { spf := 33, ratio := 3/4, in_vbr_state := false,
          latest_quality_is_custom := false, record := false } =
      .ok { encoder := { support_changing_quality := true, latency_free := true,
                         is_hardware := false, quality := 3/4, disabled := false },
            ratio := 3/4, spf := 33 }) := by
  constructor
  · exact (c3_quality_change_restart
      { source := .Monitor,
        cap := { origin := (0, 0), width := 800, height := 600, ndisplay := 1,
                 current := 0, privacy_mode_id := 0 },
        codec_format := .VP9, use_i444 := false, client_record := false }
      { encoder := { support_changing_quality := false, latency_free := true,
                     is_hardware := false, quality := 1/2, disabled := false },
        ratio := 1/2, spf := 33, repeat_encode_counter := 0, encode_fail_counter := 0,
        first_frame := true, yuv_available := false, send_counter := 0 }
      { qos := { spf := 33, ratio := 3/4, in_vbr_state := false,
                 latest_quality_is_custom := false, record := false },
        refresh_requested := false, negotiated_codec := .VP9, use_i444_now := false,
        live_privacy_id := 0, check_displays_due := false, live_displays := [],
        screenshot := none, capture := .wouldBlock, has_new_subscriber := false,
        encode := .ok, send_ids := ∅, slices := [] }).1
      (by norm_num) rfl rfl rfl
  · exact (c3_quality_change_restart
      { source := .Monitor,
        cap := { origin := (0, 0), width := 800, height := 600, ndisplay := 1,
                 current := 0, privacy_mode_id := 0 },
        codec_format := .VP9, use_i444 := false, client_record := false }
      { encoder := { support_changing_quality := true, latency_free := true,
                     is_hardware := false, quality := 1/2, disabled := false },
        ratio := 1/2, spf := 33, repeat_encode_counter := 0, encode_fail_counter := 0,
        first_frame := true, yuv_available := false, send_counter := 0 }
      { qos := { spf := 33, ratio := 3/4, in_vbr_state := false,
                 latest_quality_is_custom := false, record := false },
        refresh_requested := false, negotiated_codec := .VP9, use_i444_now := false,
        live_privacy_id := 0, check_displays_due := false, live_displays := [],
        screenshot := none, capture := .wouldBlock, has_new_subscriber := false,
        encode := .ok, send_ids := ∅, slices := [] }).2.1
      rfl (by norm_num) rfl

-- ======================================================================
-- C5: filler-frame bound
-- ======================================================================

/-- The steady-state input of a would-block iteration: QoS unchanged,
no refresh, codec and chroma mode unchanged, privacy holder equal to the
snapshot, topology re-check not due, no screenshot request, capture
returns WouldBlock, no new subscriber, the filler re-encode succeeds, and
nothing is pending on the acknowledgment channel. -/
def filler_only_input (cfg : EpochCfg) (r : Rat) (spf : Nat) : IterInput :=
  { qos := { spf := spf, ratio := r, in_vbr_state := false,
             latest_quality_is_custom := false, record := cfg.client_record },
    refresh_requested := false,
    negotiated_codec := cfg.codec_format,
    use_i444_now := cfg.use_i444,
    live_privacy_id := cfg.cap.privacy_mode_id,
    check_displays_due := false,
    live_displays := [],
    screenshot := none,
    capture := .wouldBlock,
    has_new_subscriber := false,
    encode := .ok,
    send_ids := ∅,
    slices := [] }

lemma iterate_filler_step (cfg : EpochCfg) (enc : Encoder) (r : Rat)
    (spf c fc sc : Nat) (ff : Bool) (hl : enc.latency_free = false) (hc : c < 10) :
    iterate cfg
      { encoder := enc, ratio := r, spf := spf, repeat_encode_counter := c,
        encode_fail_counter := fc, first_frame := ff, yuv_available := true,
        send_counter := sc } (filler_only_input cfg r spf) =
    .ok { state := {
            encoder := enc, ratio := r, spf := spf,
            repeat_encode_counter := c + 1, encode_fail_counter := 0,
            first_frame := false, yuv_available := true, send_counter := sc + 1 },
          filler_emitted := true, frames_sent := 1 } := by
  unfold iterate filler_only_input check_qos check_privacy_mode_changed
  simp only [ne_eq, not_true, if_neg, ite_self, if_pos]
  simp [encode_and_send, handle_one_frame, finish_iteration, ack_wait_loop, hl, hc]

lemma iterate_filler_saturated (cfg : EpochCfg) (enc : Encoder) (r : Rat)
    (spf c fc sc : Nat) (ff : Bool) (hl : enc.latency_free = false) (hc : ¬c < 10) :
    iterate cfg
      { encoder := enc, ratio := r, spf := spf, repeat_encode_counter := c,
        encode_fail_counter := fc, first_frame := ff, yuv_available := true,
        send_counter := sc } (filler_only_input cfg r spf) =
    .ok { state := {
            encoder := enc, ratio := r, spf := spf,
            repeat_encode_counter := c, encode_fail_counter := fc,
            first_frame := ff, yuv_available := true, send_counter := sc },
          filler_emitted := false, frames_sent := 0 } := by
  unfold iterate filler_only_input check_qos check_privacy_mode_changed
  simp [finish_iteration, ack_wait_loop, hl, hc]

/-- The run() loop over a list of per-iteration inputs, stopping at the
first SWITCH or fatal exit, counting how many filler frames were
emitted. -/
def run_iterations (cfg : EpochCfg) : LoopState → List IterInput →
    Except IterExit (LoopState × Nat)
  | st, [] => .ok (st, 0)
  | st, inp :: rest =>
    match iterate cfg st inp with
    | .error e => .error e
    | .ok out =>
      match run_iterations cfg out.state rest with
      | .error e => .error e
      | .ok (st2, fillers) =>
        .ok (st2, (if out.filler_emitted then 1 else 0) + fillers)

lemma run_filler_count (cfg : EpochCfg) (enc : Encoder) (r : Rat) (spf : Nat)
    (hl : enc.latency_free = false) :
    ∀ (n c fc sc : Nat) (ff : Bool), c ≤ 10 →
      ∃ st2, run_iterations cfg
        { encoder := enc, ratio := r, spf := spf, repeat_encode_counter := c,
          encode_fail_counter := fc, first_frame := ff, yuv_available := true,
          send_counter := sc }
        (List.replicate n (filler_only_input cfg r spf)) =
      .ok (st2, min n (10 - c)) := by
  intro n
  induction n with
  | zero =>
    intro c fc sc ff hc
    refine ⟨{ encoder := enc, ratio := r, spf := spf, repeat_encode_counter := c,
              encode_fail_counter := fc, first_frame := ff, yuv_available := true,
              send_counter := sc }, ?_⟩
    simp [run_iterations]
  | succ n ih =>
    intro c fc sc ff hc
    by_cases hlt : c < 10
    · obtain ⟨st2, hrun⟩ := ih (c + 1) 0 (sc + 1) false (by omega)
      refine ⟨st2, ?_⟩
      rw [List.replicate_succ]
      unfold run_iterations
      rw [iterate_filler_step cfg enc r spf c fc sc ff hl hlt]
      dsimp only
      rw [hrun]
      dsimp only
      have harith : (if true = true then 1 else 0) + min n (10 - (c + 1)) =
          min (n + 1) (10 - c) := by
        rw [if_pos rfl]
        omega
      rw [harith]
    · obtain ⟨st2, hrun⟩ := ih c fc sc ff hc
      refine ⟨st2, ?_⟩
      rw [List.replicate_succ]
      unfold run_iterations
      rw [iterate_filler_saturated cfg enc r spf c fc sc ff hl hlt]
      dsimp only
      rw [hrun]
      dsimp only
      have harith : (if false = true then 1 else 0) + min n (10 - c) =
          min (n + 1) (10 - c) := by
        rw [if_neg (by simp)]
        omega
      rw [harith]

lemma finish_iteration_ok {cfg : EpochCfg} {inp : IterInput} {st : LoopState}
    {sent : Finset ConnId} {frames : Nat} {filler : Bool} {out : IterOut}
    (h : finish_iteration cfg inp st sent frames filler = .ok out) :
    out = { state := st, filler_emitted := filler, frames_sent := frames } := by
  unfold finish_iteration at h
  split at h
  · simp at h
  · injection h with h2
    exact h2.symm

lemma encode_and_send_ok_inv {cfg : EpochCfg} {inp : IterInput} {st : LoopState}
    {filler : Bool} {out : IterOut}
    (h : encode_and_send cfg inp st filler = .ok out) :
    out.state.repeat_encode_counter = st.repeat_encode_counter ∧
      out.filler_emitted = filler := by
  unfold encode_and_send at h
  split at h
  · simp at h
  · have h2 := finish_iteration_ok h
    subst h2
    exact ⟨rfl, rfl⟩

lemma iterate_capture_ok_resets {cfg : EpochCfg} {st : LoopState} {inp : IterInput}
    {out : IterOut} {v : Bool} {k : FrameKind} {co : Bool}
    (hcap : inp.capture = .ok v k co) (h : iterate cfg st inp = .ok out) :
    out.state.repeat_encode_counter = 0 := by
  unfold iterate at h
  split at h
  · simp at h
  · split at h
    · simp at h
    · split at h
      · simp at h
      · split at h
        · simp at h
        · split at h
          · simp at h
          · split at h
            · simp at h
            · split at h
              · -- capture ok branch
                dsimp only at h
                split at h
                · -- valid
                  split at h
                  · simp at h
                  · split at h
                    · simp at h
                    · split at h
                      · simp at h
                      · exact (encode_and_send_ok_inv h).1
                  · split at h
                    · simp at h
                    · exact (encode_and_send_ok_inv h).1
                · -- invalid frame
                  have h2 := finish_iteration_ok h
                  subst h2
                  rfl
              · rename_i heq
                rw [hcap] at heq
                cases heq
              · rename_i heq
                rw [hcap] at heq
                cases heq

lemma iterate_wouldblock_saturated {cfg : EpochCfg} {st : LoopState} {inp : IterInput}
    {out : IterOut} (hcap : inp.capture = .wouldBlock)
    (hc : 10 ≤ st.repeat_encode_counter) (h : iterate cfg st inp = .ok out) :
    out.filler_emitted = false ∧
      out.state.repeat_encode_counter = st.repeat_encode_counter := by
  unfold iterate at h
  split at h
  · simp at h
  · split at h
    · simp at h
    · split at h
      · simp at h
      · split at h
        · simp at h
        · split at h
          · simp at h
          · split at h
            · simp at h
            · split at h
              · rename_i heq
                rw [hcap] at heq
                cases heq
              · -- would block branch
                dsimp only at h
                split at h
                · split at h
                  · rename_i hlt
                    omega
                  · have h2 := finish_iteration_ok h
                    subst h2
                    exact ⟨rfl, rfl⟩
                · have h2 := finish_iteration_ok h
                  subst h2
                  exact ⟨rfl, rfl⟩
              · rename_i heq
                rw [hcap] at heq
                cases heq

/-- C5: filler-frame bound.  Over any run of consecutive would-block
iterations with a non-latency-free encoder and a converted frame buffer
available, starting from a freshly reset filler counter, exactly
min(n, 10) filler frames are emitted — so never more than 10 consecutive
fillers, and after the 10th no further filler until a real frame arrives;
a successful capture (a real frame) resets the filler counter to 0; and a
would-block iteration at a saturated counter emits no filler and leaves
the counter unchanged. -/
theorem c5_filler_bound :
    (∀ (cfg : EpochCfg) (enc : Encoder) (r : Rat) (spf fc sc : Nat) (ff : Bool)
        (n : Nat), enc.latency_free = false →
      ∃ st2, run_iterations cfg
          { encoder := enc, ratio := r, spf := spf, repeat_encode_counter := 0,
            encode_fail_counter := fc, first_frame := ff, yuv_available := true,
            send_counter := sc }
          (List.replicate n (filler_only_input cfg r spf)) =
        .ok (st2, min n 10)) ∧
    (∀ (cfg : EpochCfg) (st : LoopState) (inp : IterInput) (out : IterOut)
        (v : Bool) (k : FrameKind) (co : Bool),
      inp.capture = .ok v k co → iterate cfg st inp = .ok out →
        out.state.repeat_encode_counter = 0) ∧
    (∀ (cfg : EpochCfg) (st : LoopState) (inp : IterInput) (out : IterOut),
      inp.capture = .wouldBlock → 10 ≤ st.repeat_encode_counter →
      iterate cfg st inp = .ok out →
        out.filler_emitted = false ∧
          out.state.repeat_encode_counter = st.repeat_encode_counter) := by
  refine ⟨?_, ?_, ?_⟩
  · intro cfg enc r spf fc sc ff n hl
    have h := run_filler_count cfg enc r spf hl n 0 fc sc ff (by omega)
    simpa using h
  · intro cfg st inp out v k co hcap h
    exact iterate_capture_ok_resets hcap h
  · intro cfg st inp out hcap hc h
    exact iterate_wouldblock_saturated hcap hc h

/-- Witness for c5_filler_bound: a concrete camera epoch with a
non-latency-free encoder runs 12 consecutive would-block iterations and
emits exactly 10 fillers; a concrete real-frame iteration resets the
counter from 5 to 0; a concrete saturated would-block iteration emits no
filler. -/
theorem c5_filler_bound_witness :
    (∃ st2, run_iterations
        { source := .Camera,
          cap := { origin := (0, 0), width := 320, height := 240, ndisplay := 1,
                   current := 0, privacy_mode_id := 0 },
          codec_format := .VP9, use_i444 := false, client_record := false }
        { encoder := { support_changing_quality := true, latency_free := false,
                       is_hardware := false, quality := 1, disabled := false },
          ratio := 1, spf := 33, repeat_encode_counter := 0, encode_fail_counter := 0,
          first_frame := false, yuv_available := true, send_counter := 0 }
        (List.replicate 12 (filler_only_input
          { source := .Camera,
            cap := { origin := (0, 0), width := 320, height := 240, ndisplay := 1,
                     current := 0, privacy_mode_id := 0 },
            codec_format := .VP9, use_i444 := false, client_record := false } 1 33)) =
        .ok (st2, min 12 10)) ∧
    min 12 10 = 10 ∧
    ({ state := { encoder := { support_changing_quality := true, latency_free := false,
                               is_hardware := false, quality := 1, disabled := false },
                  ratio := 1, spf := 33, repeat_encode_counter := 0,
                  encode_fail_counter := 0, first_frame := false, yuv_available := true,
                  send_counter := 1 },
       filler_emitted := false, frames_sent := 1 } : IterOut).state.repeat_encode_counter
      = 0 := by
  refine ⟨?_, by decide, ?_⟩
  · exact c5_filler_bound.1
      { source := .Camera,
        cap := { origin := (0, 0), width := 320, height := 240, ndisplay := 1,
                 current := 0, privacy_mode_id := 0 },
        codec_format := .VP9, use_i444 := false, client_record := false }
      { support_changing_quality := true, latency_free := false,
        is_hardware := false, quality := 1, disabled := false }
      1 33 0 0 false 12 rfl
  · exact c5_filler_bound.2.1
      { source := .Camera,
        cap := { origin := (0, 0), width := 320, height := 240, ndisplay := 1,
                 current := 0, privacy_mode_id := 0 },
        codec_format := .VP9, use_i444 := false, client_record := false }
      { encoder := { support_changing_quality := true, latency_free := false,
                     is_hardware := false, quality := 1, disabled := false },
        ratio := 1, spf := 33, repeat_encode_counter := 5, encode_fail_counter := 2,
        first_frame := true, yuv_available := false, send_counter := 0 }
      { filler_only_input
          { source := .Camera,
            cap := { origin := (0, 0), width := 320, height := 240, ndisplay := 1,
                     current := 0, privacy_mode_id := 0 },
            codec_format := .VP9, use_i444 := false, client_record := false } 1 33 with
        capture := .ok true .pixelBuffer true }
      { state := { encoder := { support_changing_quality := true, latency_free := false,
                                is_hardware := false, quality := 1, disabled := false },
                   ratio := 1, spf := 33, repeat_encode_counter := 0,
                   encode_fail_counter := 0, first_frame := false, yuv_available := true,
                   send_counter := 1 },
        filler_emitted := false, frames_sent := 1 }
      true .pixelBuffer true rfl rfl

-- ======================================================================
-- C10: camera epochs ignore privacy-mode drift
-- ======================================================================

/-- C10: for camera sources privacy-mode drift never triggers a restart:
both the iteration-head privacy check and the per-slice privacy re-poll
of the backpressure wait are guarded by source.is_monitor(), so a camera
iteration can never exit with the privacy SWITCH, and the whole iteration
is independent of the live privacy holder (the snapshot taken at camera
acquisition — see c8_acquire_contract — is simply never compared). -/
theorem c10_camera_ignores_privacy (cap : CapturerInfo) (cf : CodecFormat)
    (i444 rec : Bool) (st : LoopState) (inp : IterInput) (p q : Int) :
    exit_is .privacy (iterate
      { source := .Camera, cap := cap, codec_format := cf, use_i444 := i444,
        client_record := rec } st inp) = false ∧
    iterate { source := .Camera, cap := cap, codec_format := cf, use_i444 := i444,
              client_record := rec } st { inp with live_privacy_id := p } =
      iterate { source := .Camera, cap := cap, codec_format := cf, use_i444 := i444,
                client_record := rec } st { inp with live_privacy_id := q } := by
  constructor
  · cases hx : exit_is .privacy (iterate
      { source := .Camera, cap := cap, codec_format := cf, use_i444 := i444,
        client_record := rec } st inp) with
    | false => rfl
    | true =>
      exfalso
      have hit := exit_is_eq_true hx
      rcases iterate_switch_inv hit with hA | hB | hC
      · rcases check_qos_error_inv hA with ⟨h1, -⟩ | h1 <;> cases h1
      · rcases hB with h | h | h | h | h | h | h <;> cases h
      · exact absurd hC.2 (by simp [VideoSource.is_monitor])
  · rfl

end RustdeskVideo
